import Mathlib

/-!
Verification of the access layer of the library-recommendation-system
repository (src/services/api.ts) and of the ReadingLists page handler
(src/pages/BookDetail.tsx), as a shallow embedding.

Modelling conventions:
* JavaScript values are the inductive `JVal`; a string field that carries
  serialized JSON (the Lambda envelope body) is the constructor `jsonStr v`
  where `v` is what the platform JSON.parse yields on it, while `str`
  covers every other string.  `undefined` is the value of an absent property.
* One fetch call is a `FetchOutcome`: either the promise rejects with a
  network error, or it resolves with a status and the result of
  response.json() (`none` when the response body is not valid JSON).
* The mock data store (mockData.ts, imported by api.ts but not among the
  sources) is a `Store` parameter threaded through the functions.
* Timer delays (setTimeout) are erased; Date.now() and toISOString() are
  passed in as the parameters `now` and `iso`.
* Thrown exceptions are `Except.error`; the not-found throws that the
  source performs inside a fallback timer callback are likewise modelled
  as error outcomes of the call.
-/

namespace LibraryApi

/-- JavaScript values as the access layer sees them. -/
inductive JVal where
  | null
  | undefined
  | bool (b : Bool)
  | num (n : Int)
  | str (s : String)
  | jsonStr (v : JVal)
  | arr (elems : List JVal)
  | obj (kvs : List (String × JVal))
deriving Repr

/-- JavaScript truthiness. -/
def truthy : JVal → Bool
  | .null => false
  | .undefined => false
  | .bool b => b
  | .num n => n != 0
  | .str s => s != ""
  | .jsonStr _ => true
  | .arr _ => true
  | .obj _ => true

/-- Test corresponding to the source check typeof x === a string type. -/
def isStringVal : JVal → Bool
  | .str _ => true
  | .jsonStr _ => true
  | _ => false

/-- Test corresponding to Array.isArray. -/
def isArr : JVal → Bool
  | .arr _ => true
  | _ => false

/-- Test corresponding to typeof x === an object type, arrays excluded by
the callers. -/
def isObjVal : JVal → Bool
  | .obj _ => true
  | _ => false

/-- First-match association lookup: the semantics of a property read on a
plain JavaScript object given as a key-value list. -/
def olookup : List (String × JVal) → String → Option JVal
  | [], _ => none
  | kv :: rest, k => if k = kv.1 then some kv.2 else olookup rest k

/-- Property read on an object known to be non-null, absent keys giving
undefined. -/
def objField (o : List (String × JVal)) (k : String) : JVal :=
  (olookup o k).getD .undefined

/-- Property read on an arbitrary value: a read on null or undefined throws
a TypeError (an error outcome); a read of an absent key on an object, or of
any key on a primitive, yields undefined. -/
def jget : JVal → String → Except Unit JVal
  | .null, _ => .error ()
  | .undefined, _ => .error ()
  | .obj kvs, k => .ok (objField kvs k)
  | _, _ => .ok .undefined

/-- Total variant of `jget` for use in statements, agreeing with it away
from null and undefined. -/
def jfieldD : JVal → String → JVal
  | .obj kvs, k => objField kvs k
  | _, _ => .undefined

/-- Behaviour of JSON.parse applied to a string value of the embedding: a
string represented as `jsonStr v` parses to `v`, any other string throws. -/
def jparse : JVal → Except Unit JVal
  | .jsonStr v => .ok v
  | _ => .error ()

/-- JavaScript object spread followed by explicit field writes, as in the
fallback record constructions: the keys of `base` keep their order with
values overridden by `ov`, and the keys of `ov` that are new to `base` are
appended in order. -/
def mergeObj (base ov : List (String × JVal)) : List (String × JVal) :=
  base.map (fun kv =>
    match olookup ov kv.1 with
    | some v => (kv.1, v)
    | none => kv)
  ++ ov.filter (fun kv => (olookup base kv.1).isNone)

def kBody : String := "body"
def kId : String := "id"
def kList : String := "list"
def kBook : String := "book"
def kSuccess : String := "success"
def kUserId : String := "userId"
def kName : String := "name"
def kDescription : String := "description"
def kBookIds : String := "bookIds"
def kCreatedAt : String := "createdAt"
def kUpdatedAt : String := "updatedAt"
def kStatusCode : String := "statusCode"
def kHeaders : String := "headers"
def kBookId : String := "bookId"
def kRating : String := "rating"
def kComment : String := "comment"
def kLength : String := "length"

/-- Translation of the strict comparison x.id === id of the find callbacks,
where id is a string. -/
def idIs (o : List (String × JVal)) (id : String) : Bool :=
  match olookup o kId with
  | some (JVal.str s) => s == id
  | _ => false

/-- Whether a fetch Response is ok: status in the range 200 to 299. -/
def statusOk (st : Nat) : Bool := decide (200 ≤ st ∧ st ≤ 299)

/-- Outcome of one fetch call. -/
inductive FetchOutcome where
  | fail
  | response (status : Nat) (json : Option JVal)
deriving Repr

/-- Modelled from the spec: the mock data store.  mockData.ts is not among
the sources; spec sections 2 and 3 describe it as static in-memory
collections of sample Book and ReadingList entities used as fallback. -/
structure Store where
  books : List (List (String × JVal))
  lists : List (List (String × JVal))
deriving Repr

def userIdRequiredMsg : String := "userId is required to update reading list"
def readingListNotFoundMsg (id : String) : String :=
  "Reading list " ++ id ++ " not found"
def bookNotFoundMsg (id : String) : String := "Book " ++ id ++ " not found"

/-- Network path of getBooks (the try block): a non-ok status throws; a
truthy string body field is parsed, its length property is read for the
success log (throwing a TypeError when the payload is null) and the
payload is returned; a bare array is returned; any other shape throws an
unexpected-format error. -/
def getBooksTry : FetchOutcome → Except Unit JVal
  | .fail => .error ()
  | .response st mres =>
    if statusOk st = false then .error ()
    else
      match mres with
      | none => .error ()
      | some result =>
        match jget result kBody with
        | .error e => .error e
        | .ok body =>
          if truthy body && isStringVal body then
            match jparse body with
            | .error e => .error e
            | .ok books =>
              match jget books kLength with
              | .error e => .error e
              | .ok _ => .ok books
          else if isArr result then .ok result
          else .error ()

/-- getBooks: any failure of the network path falls back to a snapshot of
the mock books. -/
def getBooks (store : Store) (o : FetchOutcome) : JVal :=
  match getBooksTry o with
  | .ok v => v
  | .error _ => .arr (store.books.map JVal.obj)

/-- Network path of getBook: a 404 status returns null at once; a non-ok
status throws; then the envelope body, a direct object with a truthy id,
and the success wrapper are accepted in that order, anything else giving
null. -/
def getBookTry : FetchOutcome → Except Unit JVal
  | .fail => .error ()
  | .response st mres =>
    if st = 404 then .ok JVal.null
    else if statusOk st = false then .error ()
    else
      match mres with
      | none => .error ()
      | some result =>
        match jget result kBody with
        | .error e => .error e
        | .ok body =>
          if truthy body && isStringVal body then jparse body
          else
            match jget result kId with
            | .error e => .error e
            | .ok rid =>
              if truthy rid then .ok result
              else
                match jget result kSuccess with
                | .error e => .error e
                | .ok succ =>
                  if truthy succ then
                    match jget result kBook with
                    | .error e => .error e
                    | .ok bk => if truthy bk then .ok bk else .ok JVal.null
                  else .ok JVal.null

/-- getBook: any failure of the network path falls back to a find over the
mock books, null when absent. -/
def getBook (store : Store) (id : String) (o : FetchOutcome) : JVal :=
  match getBookTry o with
  | .ok v => v
  | .error _ =>
    match store.books.find? (fun b => idIs b id) with
    | some b => JVal.obj b
    | none => JVal.null

/-- Network path of getReadingLists: the envelope body is parsed, its
length property is read for the success log (throwing a TypeError when the
payload is null) and the payload returned; then a bare array, then any
truthy non-array object wrapped as a one-element array, else an empty
array. -/
def getReadingListsTry : FetchOutcome → Except Unit JVal
  | .fail => .error ()
  | .response st mres =>
    if statusOk st = false then .error ()
    else
      match mres with
      | none => .error ()
      | some result =>
        match jget result kBody with
        | .error e => .error e
        | .ok body =>
          if truthy body && isStringVal body then
            match jparse body with
            | .error e => .error e
            | .ok lists =>
              match jget lists kLength with
              | .error e => .error e
              | .ok _ => .ok lists
          else if isArr result then .ok result
          else if truthy result && isObjVal result then .ok (JVal.arr [result])
          else .ok (JVal.arr [])

/-- getReadingLists: any failure of the network path falls back to a
snapshot of the mock reading lists. -/
def getReadingLists (store : Store) (o : FetchOutcome) : JVal :=
  match getReadingListsTry o with
  | .ok v => v
  | .error _ => .arr (store.lists.map JVal.obj)

/-- Network path of createReadingList: envelope body parsed, then its list
field when truthy; then the success wrapper; else the raw result. -/
def createReadingListTry : FetchOutcome → Except Unit JVal
  | .fail => .error ()
  | .response st mres =>
    if statusOk st = false then .error ()
    else
      match mres with
      | none => .error ()
      | some result =>
        match jget result kBody with
        | .error e => .error e
        | .ok body =>
          if truthy body && isStringVal body then
            match jparse body with
            | .error e => .error e
            | .ok listData =>
              match jget listData kList with
              | .error e => .error e
              | .ok l => if truthy l then .ok l else .ok listData
          else
            match jget result kSuccess with
            | .error e => .error e
            | .ok succ =>
              if truthy succ then
                match jget result kList with
                | .error e => .error e
                | .ok l => if truthy l then .ok l else .ok result
              else .ok result

/-- createReadingList: the fallback builds a fresh record from the input
with an id taken from Date.now() and both timestamps from the current date
(parameters `now` and `iso`); the mock store is not touched. -/
def createReadingList (input : List (String × JVal)) (now : Nat) (iso : String)
    (o : FetchOutcome) : JVal :=
  match createReadingListTry o with
  | .ok v => v
  | .error _ =>
    JVal.obj (mergeObj input
      [(kId, JVal.str (toString now)), (kCreatedAt, JVal.str iso),
       (kUpdatedAt, JVal.str iso)])

/-- Network path of updateReadingList, identical in shape to the create
path. -/
def updateReadingListTry : FetchOutcome → Except Unit JVal
  | .fail => .error ()
  | .response st mres =>
    if statusOk st = false then .error ()
    else
      match mres with
      | none => .error ()
      | some result =>
        match jget result kBody with
        | .error e => .error e
        | .ok body =>
          if truthy body && isStringVal body then
            match jparse body with
            | .error e => .error e
            | .ok parsed =>
              match jget parsed kList with
              | .error e => .error e
              | .ok l => if truthy l then .ok l else .ok parsed
          else
            match jget result kSuccess with
            | .error e => .error e
            | .ok succ =>
              if truthy succ then
                match jget result kList with
                | .error e => .error e
                | .ok l => if truthy l then .ok l else .ok result
              else .ok result

/-- updateReadingList: a missing userId is rejected before the request; on
network failure the fallback finds the id in the mock store, throws a
not-found error when absent (the source throws from inside the fallback
timer callback, modelled as an error outcome), and otherwise returns the
spread of the stored record and the partial with the id and updatedAt
written last. -/
def updateReadingList (store : Store) (id : String)
    (input : List (String × JVal)) (iso : String)
    (o : FetchOutcome) : Except String JVal :=
  if truthy (objField input kUserId) = false then .error userIdRequiredMsg
  else
    match updateReadingListTry o with
    | .ok v => .ok v
    | .error _ =>
      match store.lists.find? (fun l => idIs l id) with
      | none => .error (readingListNotFoundMsg id)
      | some l =>
        .ok (JVal.obj (mergeObj (mergeObj l input)
          [(kId, JVal.str id), (kUpdatedAt, JVal.str iso)]))

/-- deleteReadingList: every branch resolves with no value; the fallback
does not consult the mock store and never signals an error. -/
def deleteReadingList (id userId : String) (o : FetchOutcome) :
    Except String Unit :=
  match o with
  | .fail => .ok ()
  | .response st mres =>
    if statusOk st = false then .ok ()
    else
      match mres with
      | none => .ok ()
      | some _ => .ok ()

/-- Network path of createBook: envelope body parsed, then its book field
when truthy; else the raw result. -/
def createBookTry : FetchOutcome → Except Unit JVal
  | .fail => .error ()
  | .response st mres =>
    if statusOk st = false then .error ()
    else
      match mres with
      | none => .error ()
      | some result =>
        match jget result kBody with
        | .error e => .error e
        | .ok body =>
          if truthy body && isStringVal body then
            match jparse body with
            | .error e => .error e
            | .ok bookData =>
              match jget bookData kBook with
              | .error e => .error e
              | .ok b => if truthy b then .ok b else .ok bookData
          else .ok result

/-- createBook: the fallback builds the new record from the input with an
id from Date.now(). -/
def createBook (input : List (String × JVal)) (now : Nat)
    (o : FetchOutcome) : JVal :=
  match createBookTry o with
  | .ok v => v
  | .error _ => JVal.obj (mergeObj input [(kId, JVal.str (toString now))])

/-- Network path of updateBook, identical in shape to the createBook
path. -/
def updateBookTry : FetchOutcome → Except Unit JVal
  | .fail => .error ()
  | .response st mres =>
    if statusOk st = false then .error ()
    else
      match mres with
      | none => .error ()
      | some result =>
        match jget result kBody with
        | .error e => .error e
        | .ok body =>
          if truthy body && isStringVal body then
            match jparse body with
            | .error e => .error e
            | .ok bookData =>
              match jget bookData kBook with
              | .error e => .error e
              | .ok b => if truthy b then .ok b else .ok bookData
          else .ok result

/-- updateBook: no precondition check; on network failure the fallback
finds the id among the mock books, throws a not-found error when absent
(thrown from the fallback timer callback in the source, modelled as an
error outcome), else returns the spread of the stored record and the
partial with the id written last. -/
def updateBook (store : Store) (id : String)
    (input : List (String × JVal)) (o : FetchOutcome) : Except String JVal :=
  match updateBookTry o with
  | .ok v => .ok v
  | .error _ =>
    match store.books.find? (fun b => idIs b id) with
    | none => .error (bookNotFoundMsg id)
    | some b =>
      .ok (JVal.obj (mergeObj (mergeObj b input) [(kId, JVal.str id)]))

/-- deleteBook: every branch resolves with no value. -/
def deleteBook (id : String) (o : FetchOutcome) : Except String Unit :=
  match o with
  | .fail => .ok ()
  | .response st mres =>
    if statusOk st = false then .ok ()
    else
      match mres with
      | none => .ok ()
      | some _ => .ok ()

/-- Network path of getReviews: envelope body, bare array, else an empty
array. -/
def getReviewsTry : FetchOutcome → Except Unit JVal
  | .fail => .error ()
  | .response st mres =>
    if statusOk st = false then .error ()
    else
      match mres with
      | none => .error ()
      | some result =>
        match jget result kBody with
        | .error e => .error e
        | .ok body =>
          if truthy body && isStringVal body then jparse body
          else if isArr result then .ok result
          else .ok (JVal.arr [])

/-- getReviews: the fallback synthesizes a fixed one-element review list
for the requested book. -/
def getReviews (bookId : String) (o : FetchOutcome) : JVal :=
  match getReviewsTry o with
  | .ok v => v
  | .error _ =>
    JVal.arr [JVal.obj
      [(kId, JVal.str ("1")), (kBookId, JVal.str bookId),
       (kUserId, JVal.str ("1")), (kRating, JVal.num 5),
       (kComment, JVal.str ("Absolutely loved this book! A must-read.")),
       (kCreatedAt, JVal.str ("2024-11-01T10:00:00Z"))]]

/-- Network path of createReview: envelope body parsed and returned, else
the raw result. -/
def createReviewTry : FetchOutcome → Except Unit JVal
  | .fail => .error ()
  | .response st mres =>
    if statusOk st = false then .error ()
    else
      match mres with
      | none => .error ()
      | some result =>
        match jget result kBody with
        | .error e => .error e
        | .ok body =>
          if truthy body && isStringVal body then jparse body
          else .ok result

/-- createReview: the fallback builds the review from the input with an id
from Date.now() and a createdAt timestamp. -/
def createReview (input : List (String × JVal)) (now : Nat) (iso : String)
    (o : FetchOutcome) : JVal :=
  match createReviewTry o with
  | .ok v => v
  | .error _ =>
    JVal.obj (mergeObj input
      [(kId, JVal.str (toString now)), (kCreatedAt, JVal.str iso)])

/-- Translation of the JavaScript String.prototype.trim: whitespace is
removed from both ends of the string. -/
def jsTrim (s : String) : String :=
  ⟨((s.data.dropWhile Char.isWhitespace).reverse.dropWhile
      Char.isWhitespace).reverse⟩

/-- Local state of the ReadingLists page component touched by
handleCreateList. -/
structure PageState where
  lists : List JVal
  isModalOpen : Bool
  newListName : String
  newListDescription : String
deriving Repr

/-- loadLists: fetches the lists and replaces the list state, resetting it
to an empty list when the result is not an array. -/
def loadLists (store : Store) (st : PageState) (o : FetchOutcome) :
    PageState :=
  match getReadingLists store o with
  | JVal.arr xs => { st with lists := xs }
  | _ => { st with lists := [] }

/-- handleCreateList: a blank (empty after trim) name is rejected before
any network call; otherwise the list is created with a fixed test user, the
result is prepended, the modal state is reset and the lists are reloaded.
The Bool records whether createReadingList was invoked. -/
def handleCreateList (store : Store) (st : PageState) (now : Nat)
    (iso : String) (oCreate oReload : FetchOutcome) : Bool × PageState :=
  if jsTrim st.newListName = "" then (false, st)
  else
    let newList := createReadingList
      [(kUserId, JVal.str ("test-user-123")), (kName, JVal.str st.newListName),
       (kDescription, JVal.str st.newListDescription), (kBookIds, JVal.arr [])]
      now iso oCreate
    let afterSet : PageState :=
      { lists := newList :: st.lists, isModalOpen := false,
        newListName := "", newListDescription := "" }
    (true, loadLists store afterSet oReload)

/-- Modelled from the spec: sample contents of the mock data store
(mockData.ts is not among the sources; the spec describes static sample
Book and ReadingList collections matching the data model of section 3). -/
def sampleBook1 : List (String × JVal) :=
  [(kId, JVal.str ("1")), ("title", JVal.str ("The Midnight Library")),
   ("author", JVal.str ("Matt Haig")), ("genre", JVal.str ("Fiction")),
   (kRating, JVal.num 4), ("publishedYear", JVal.num 2020),
   (kDescription, JVal.str ("A novel about second chances")),
   ("coverImage", JVal.str ("https://example.com/covers/1.jpg")),
   ("isbn", JVal.str ("9780525559474"))]

/-- Modelled from the spec: a second sample book of the mock store. -/
def sampleBook2 : List (String × JVal) :=
  [(kId, JVal.str ("2")), ("title", JVal.str ("Project Hail Mary")),
   ("author", JVal.str ("Andy Weir")), ("genre", JVal.str ("Science Fiction")),
   (kRating, JVal.num 5), ("publishedYear", JVal.num 2021),
   (kDescription, JVal.str ("A lone astronaut saves the earth")),
   ("coverImage", JVal.str ("https://example.com/covers/2.jpg")),
   ("isbn", JVal.str ("9780593135204"))]

/-- Modelled from the spec: a sample reading list of the mock store. -/
def sampleList1 : List (String × JVal) :=
  [(kId, JVal.str ("1")), (kUserId, JVal.str ("user-1")),
   (kName, JVal.str ("Favourites")),
   (kDescription, JVal.str ("Books I keep rereading")),
   (kBookIds, JVal.arr [JVal.str ("1")]),
   (kCreatedAt, JVal.str ("2024-01-01T00:00:00Z")),
   (kUpdatedAt, JVal.str ("2024-01-02T00:00:00Z"))]

/-- Modelled from the spec: the sample mock store. -/
def sampleStore : Store :=
  { books := [sampleBook1, sampleBook2], lists := [sampleList1] }

/-- Concrete page state with a whitespace-only new-list name. -/
def blankNameState : PageState :=
  { lists := [], isModalOpen := true, newListName := "   ",
    newListDescription := "" }

/-- One access-layer call with its inputs and its fetch outcome. -/
inductive Op where
  | listBooks (o : FetchOutcome)
  | oneBook (id : String) (o : FetchOutcome)
  | listLists (o : FetchOutcome)
  | createList (input : List (String × JVal)) (now : Nat) (iso : String)
      (o : FetchOutcome)
  | updateList (id : String) (input : List (String × JVal)) (iso : String)
      (o : FetchOutcome)
  | deleteList (id userId : String) (o : FetchOutcome)
  | addBook (input : List (String × JVal)) (now : Nat) (o : FetchOutcome)
  | editBook (id : String) (input : List (String × JVal)) (o : FetchOutcome)
  | removeBook (id : String) (o : FetchOutcome)
  | listReviews (bookId : String) (o : FetchOutcome)
  | addReview (input : List (String × JVal)) (now : Nat) (iso : String)
      (o : FetchOutcome)
deriving Repr

/-- State-passing translation of one access-layer call: the call reads the
store for its fallbacks, and since no branch of the source assigns to
mockBooks or mockReadingLists, every branch hands back the store it was
given. -/
def runOp (op : Op) (s : Store) : Except String JVal × Store :=
  match op with
  | .listBooks o => (.ok (getBooks s o), s)
  | .oneBook id o => (.ok (getBook s id o), s)
  | .listLists o => (.ok (getReadingLists s o), s)
  | .createList input now iso o => (.ok (createReadingList input now iso o), s)
  | .updateList id input iso o => (updateReadingList s id input iso o, s)
  | .deleteList id userId o =>
    ((deleteReadingList id userId o).map (fun _ => JVal.null), s)
  | .addBook input now o => (.ok (createBook input now o), s)
  | .editBook id input o => (updateBook s id input o, s)
  | .removeBook id o => ((deleteBook id o).map (fun _ => JVal.null), s)
  | .listReviews bookId o => (.ok (getReviews bookId o), s)
  | .addReview input now iso o => (.ok (createReview input now iso o), s)

/-- Run a sequence of access-layer calls, threading the mock store. -/
def runSeq (ops : List Op) (s : Store) : Store :=
  ops.foldl (fun acc op => (runOp op acc).2) s

/-- Lookup distributes over list append, first list first. -/
theorem olookup_append (xs ys : List (String × JVal)) (k : String) :
    olookup (xs ++ ys) k =
      match olookup xs k with
      | some v => some v
      | none => olookup ys k := by
  induction xs with
  | nil => simp [olookup]
  | cons kv rest ih =>
    by_cases h : k = kv.1
    · simp [olookup, h]
    · simp [olookup, h, ih]

/-- Lookup over the overridden-base part of a spread. -/
theorem olookup_overrideMap (ov : List (String × JVal)) (k : String)
    (base : List (String × JVal)) :
    olookup (base.map (fun kv =>
      match olookup ov kv.1 with
      | some v => (kv.1, v)
      | none => kv)) k =
      match olookup base k, olookup ov k with
      | none, _ => none
      | some _, some v => some v
      | some bv, none => some bv := by
  induction base with
  | nil => simp [olookup]
  | cons kv rest ih =>
    obtain ⟨k1, v1⟩ := kv
    by_cases h : k = k1
    · subst h
      cases hov : olookup ov k with
      | some v => simp [olookup, hov]
      | none => simp [olookup, hov]
    · cases hov1 : olookup ov k1 with
      | some v => simp [olookup, h, hov1, ih]
      | none => simp [olookup, h, hov1, ih]

/-- Lookup over the appended new-keys part of a spread. -/
theorem olookup_filterNew (base : List (String × JVal)) (k : String)
    (ov : List (String × JVal)) :
    olookup (ov.filter (fun kv => (olookup base kv.1).isNone)) k =
      match olookup base k with
      | some _ => none
      | none => olookup ov k := by
  induction ov with
  | nil => cases hb : olookup base k <;> simp [olookup]
  | cons kv rest ih =>
    obtain ⟨k1, v1⟩ := kv
    by_cases h : k = k1
    · subst h
      cases hb : olookup base k with
      | some bv => simp [List.filter_cons, hb, ih]
      | none => simp [List.filter_cons, olookup, hb]
    · cases hb : olookup base k with
      | some bv =>
        cases hb1 : olookup base k1 with
        | some bv1 => simp [List.filter_cons, olookup, hb, hb1, h, ih]
        | none => simp [List.filter_cons, olookup, hb, hb1, h, ih]
      | none =>
        cases hb1 : olookup base k1 with
        | some bv1 => simp [List.filter_cons, olookup, hb, hb1, h, ih]
        | none => simp [List.filter_cons, olookup, hb, hb1, h, ih]

/-- Lookup on a JavaScript spread: the override wins where present,
otherwise the base value is kept. -/
theorem olookup_mergeObj (base ov : List (String × JVal)) (k : String) :
    olookup (mergeObj base ov) k =
      match olookup ov k with
      | some v => some v
      | none => olookup base k := by
  unfold mergeObj
  rw [olookup_append, olookup_overrideMap, olookup_filterNew]
  cases hb : olookup base k <;> cases hov : olookup ov k <;> simp

/-- Away from null and undefined a property read cannot throw and agrees
with the total read. -/
theorem jget_eq_jfieldD (v : JVal) (k : String) (h1 : v ≠ JVal.null)
    (h2 : v ≠ JVal.undefined) : jget v k = .ok (jfieldD v k) := by
  cases v <;> simp_all [jget, jfieldD]

/-- Serialized-JSON strings are truthy, being nonempty. -/
theorem truthy_jsonStr (v : JVal) : truthy (JVal.jsonStr v) = true := rfl

/-- Serialized-JSON strings are strings. -/
theorem isStringVal_jsonStr (v : JVal) : isStringVal (JVal.jsonStr v) = true :=
  rfl

/-- JSON.parse on a serialized-JSON string yields its payload. -/
theorem jparse_jsonStr (v : JVal) : jparse (JVal.jsonStr v) = .ok v := rfl

/-- A property read on an object yields the field or undefined. -/
theorem jget_obj (kvs : List (String × JVal)) (k : String) :
    jget (JVal.obj kvs) k = .ok (objField kvs k) := rfl

/-- Error messages of updateBook: the only error it ever signals is the
fallback not-found message. -/
theorem updateBook_errors (store : Store) (id : String)
    (input : List (String × JVal)) (o : FetchOutcome) (e : String)
    (h : updateBook store id input o = .error e) : e = bookNotFoundMsg id := by
  unfold updateBook at h
  cases htry : updateBookTry o with
  | ok v => rw [htry] at h; simp at h
  | error u =>
    rw [htry] at h
    cases hf : store.books.find? (fun b => idIs b id) with
    | none => rw [hf] at h; simp at h; exact h.symm
    | some b => rw [hf] at h; simp at h

/-- Error messages of updateReadingList: the only errors it ever signals
are the userId precondition and the fallback not-found message. -/
theorem updateReadingList_errors (store : Store) (id : String)
    (input : List (String × JVal)) (iso : String) (o : FetchOutcome)
    (e : String)
    (h : updateReadingList store id input iso o = .error e) :
    e = userIdRequiredMsg ∨ e = readingListNotFoundMsg id := by
  unfold updateReadingList at h
  by_cases hu : truthy (objField input kUserId) = false
  · rw [if_pos hu] at h
    simp at h
    exact Or.inl h.symm
  · rw [if_neg hu] at h
    cases htry : updateReadingListTry o with
    | ok v => rw [htry] at h; simp at h
    | error u =>
      rw [htry] at h
      cases hf : store.lists.find? (fun l => idIs l id) with
      | none => rw [hf] at h; simp at h; exact Or.inr h.symm
      | some l => rw [hf] at h; simp at h

/-- C1 (amended): on mock fallback the update operations signal a not-found
error for ids absent from the mock store, while deleteReadingList never
signals any error whatever the id; beyond not-found, the only other error
the update operations signal is the userId precondition of
updateReadingList. -/
theorem fallback_error_conditions :
    (∀ (store : Store) (id : String) (input : List (String × JVal))
        (iso : String),
      truthy (objField input kUserId) = true →
      store.lists.find? (fun l => idIs l id) = none →
      updateReadingList store id input iso .fail
        = .error (readingListNotFoundMsg id)) ∧
    (∀ (store : Store) (id : String) (input : List (String × JVal)),
      store.books.find? (fun b => idIs b id) = none →
      updateBook store id input .fail = .error (bookNotFoundMsg id)) ∧
    (∀ (id userId : String) (o : FetchOutcome),
      deleteReadingList id userId o = .ok ()) ∧
    (∀ store id input iso o e,
      updateReadingList store id input iso o = .error e →
      e = userIdRequiredMsg ∨ e = readingListNotFoundMsg id) ∧
    (∀ store id input o e,
      updateBook store id input o = .error e → e = bookNotFoundMsg id) := by
  refine ⟨?_, ?_, ?_, ?_, ?_⟩
  · intro store id input iso hu hf
    simp [updateReadingList, hu, updateReadingListTry, hf]
  · intro store id input hf
    simp [updateBook, updateBookTry, hf]
  · intro id userId o
    cases o with
    | fail => rfl
    | response st mres =>
      cases mres <;> simp [deleteReadingList]
  · exact fun store id input iso o e h =>
      updateReadingList_errors store id input iso o e h
  · exact fun store id input o e h => updateBook_errors store id input o e h

/-- Witness for the amended C1 at concrete inputs: id 999 is absent from
the sample mock store. -/
theorem fallback_error_conditions_witness :
    updateReadingList sampleStore ("999") [(kUserId, JVal.str ("user-1"))]
        ("2025-01-01T00:00:00Z") .fail
      = .error (readingListNotFoundMsg ("999")) ∧
    updateBook sampleStore ("999") [] .fail
      = .error (bookNotFoundMsg ("999")) ∧
    deleteReadingList ("999") ("user-1") .fail = .ok () := by
  refine ⟨?_, ?_, ?_⟩
  · exact fallback_error_conditions.1 sampleStore ("999") _ _ rfl rfl
  · exact fallback_error_conditions.2.1 sampleStore ("999") [] rfl
  · exact fallback_error_conditions.2.2.1 ("999") ("user-1") .fail

/-- C1 as stated is false for delete: with the backend unreachable and the
id 999 absent from the mock lists, deleteReadingList resolves successfully
instead of failing with a not-found error. -/
theorem delete_absent_succeeds :
    sampleStore.lists.find? (fun l => idIs l ("999")) = none ∧
    deleteReadingList ("999") ("user-1") .fail = .ok () := ⟨rfl, rfl⟩

/-- C2 (amended): every non-2xx status sends getBooks to the full mock
collection; getBook falls back to the mock find for every non-2xx status
other than 404, while a 404 returns null unconditionally. -/
theorem non2xx_mock_fallback :
    (∀ (store : Store) (st : Nat) (mres : Option JVal),
      statusOk st = false →
      getBooks store (.response st mres) = .arr (store.books.map JVal.obj)) ∧
    (∀ (store : Store) (id : String) (st : Nat) (mres : Option JVal),
      statusOk st = false → st ≠ 404 →
      getBook store id (.response st mres)
        = (match store.books.find? (fun b => idIs b id) with
           | some b => JVal.obj b
           | none => JVal.null)) ∧
    (∀ (store : Store) (id : String) (mres : Option JVal),
      getBook store id (.response 404 mres) = JVal.null) := by
  refine ⟨?_, ?_, ?_⟩
  · intro store st mres hst
    simp [getBooks, getBooksTry, hst]
  · intro store id st mres hst h404
    simp [getBook, getBookTry, hst, h404]
  · intro store id mres
    rfl

/-- Witness for the amended C2 at status 500. -/
theorem non2xx_mock_fallback_witness :
    getBooks sampleStore (.response 500 none)
      = .arr (sampleStore.books.map JVal.obj) ∧
    getBook sampleStore ("1") (.response 500 none) = JVal.obj sampleBook1 := by
  constructor
  · exact non2xx_mock_fallback.1 sampleStore 500 none rfl
  · exact non2xx_mock_fallback.2.1 sampleStore ("1") 500 none rfl (by decide)

/-- C2 as stated is false at status 404: the mock store holds a book with
id 1, yet getBook returns null rather than that mock book. -/
theorem getBook_404_counterexample :
    sampleStore.books.find? (fun b => idIs b ("1")) = some sampleBook1 ∧
    getBook sampleStore ("1") (.response 404 none) = JVal.null ∧
    JVal.null ≠ JVal.obj sampleBook1 := ⟨rfl, rfl, by simp⟩

/-- C3 (amended): the mock create returns the supplied fields under a fresh
id but never inserts into the store; updating an id that the store does
hold reflects the latest supplied fields with the requested id; and the
create-then-update round trip on the fresh id fails with not-found
whenever that id is absent from the static store. -/
theorem mock_roundtrip :
    (∀ (input : List (String × JVal)) (now : Nat) (iso : String),
      ∃ kvs, createReadingList input now iso .fail = JVal.obj kvs ∧
        olookup kvs kId = some (JVal.str (toString now)) ∧
        olookup kvs kCreatedAt = some (JVal.str iso) ∧
        olookup kvs kUpdatedAt = some (JVal.str iso) ∧
        (∀ k v, olookup input k = some v → k ≠ kId → k ≠ kCreatedAt →
          k ≠ kUpdatedAt → olookup kvs k = some v)) ∧
    (∀ (store : Store) (id : String) (input l : List (String × JVal))
        (iso : String),
      truthy (objField input kUserId) = true →
      store.lists.find? (fun x => idIs x id) = some l →
      ∃ kvs, updateReadingList store id input iso .fail
          = .ok (JVal.obj kvs) ∧
        olookup kvs kId = some (JVal.str id) ∧
        olookup kvs kUpdatedAt = some (JVal.str iso) ∧
        (∀ k v, olookup input k = some v → k ≠ kId → k ≠ kUpdatedAt →
          olookup kvs k = some v)) ∧
    (∀ (store : Store) (input input2 : List (String × JVal)) (now : Nat)
        (iso iso2 : String),
      truthy (objField input2 kUserId) = true →
      store.lists.find? (fun l => idIs l (toString now)) = none →
      createReadingList input now iso .fail = JVal.obj (mergeObj input
        [(kId, JVal.str (toString now)), (kCreatedAt, JVal.str iso),
         (kUpdatedAt, JVal.str iso)]) ∧
      updateReadingList store (toString now) input2 iso2 .fail
        = .error (readingListNotFoundMsg (toString now))) := by
  refine ⟨?_, ?_, ?_⟩
  · intro input now iso
    refine ⟨mergeObj input [(kId, JVal.str (toString now)),
      (kCreatedAt, JVal.str iso), (kUpdatedAt, JVal.str iso)], rfl, ?_, ?_, ?_, ?_⟩
    · rw [olookup_mergeObj]; simp [olookup]
    · rw [olookup_mergeObj]; simp [olookup, kCreatedAt, kId]
    · rw [olookup_mergeObj]; simp [olookup, kUpdatedAt, kId, kCreatedAt]
    · intro k v hk h1 h2 h3
      rw [olookup_mergeObj]
      simp [olookup, h1, h2, h3, hk]
  · intro store id input l iso hu hf
    refine ⟨mergeObj (mergeObj l input)
      [(kId, JVal.str id), (kUpdatedAt, JVal.str iso)], ?_, ?_, ?_, ?_⟩
    · simp [updateReadingList, hu, updateReadingListTry, hf]
    · rw [olookup_mergeObj]; simp [olookup]
    · rw [olookup_mergeObj]; simp [olookup, kUpdatedAt, kId]
    · intro k v hk h1 h2
      rw [olookup_mergeObj, olookup_mergeObj]
      simp [olookup, h1, h2, hk]
  · intro store input input2 now iso iso2 hu hf
    constructor
    · rfl
    · simp [updateReadingList, hu, updateReadingListTry, hf]

/-- Witness for the amended C3: update of the stored list 1 keeps its id,
and the create-then-update round trip on fresh id 999 fails. -/
theorem mock_roundtrip_witness :
    (∃ kvs, updateReadingList sampleStore ("1")
        [(kUserId, JVal.str ("u1")), (kName, JVal.str ("B"))] ("t9") .fail
        = .ok (JVal.obj kvs) ∧ olookup kvs kId = some (JVal.str ("1"))) ∧
    updateReadingList sampleStore ("999")
        [(kUserId, JVal.str ("u1")), (kName, JVal.str ("B"))] ("t2") .fail
      = .error (readingListNotFoundMsg ("999")) := by
  constructor
  · obtain ⟨kvs, h1, h2, h3, h4⟩ := mock_roundtrip.2.1 sampleStore ("1")
      [(kUserId, JVal.str ("u1")), (kName, JVal.str ("B"))] sampleList1
      ("t9") rfl rfl
    exact ⟨kvs, h1, h2⟩
  · exact (mock_roundtrip.2.2 sampleStore
      [(kUserId, JVal.str ("u1")), (kName, JVal.str ("A"))]
      [(kUserId, JVal.str ("u1")), (kName, JVal.str ("B"))] 999 ("t1") ("t2")
      rfl rfl).2

/-- C3 as stated is false: on the mock path the created list (fresh id 999)
is not inserted into the store, so the update step of the round trip fails
with not-found instead of yielding the updated record. -/
theorem create_update_roundtrip_counterexample :
    createReadingList [(kUserId, JVal.str ("u1")), (kName, JVal.str ("A")),
        (kDescription, JVal.str ("d")), (kBookIds, JVal.arr [])] 999 ("t1")
        .fail
      = JVal.obj [(kUserId, JVal.str ("u1")), (kName, JVal.str ("A")),
        (kDescription, JVal.str ("d")), (kBookIds, JVal.arr []),
        (kId, JVal.str ("999")), (kCreatedAt, JVal.str ("t1")),
        (kUpdatedAt, JVal.str ("t1"))] ∧
    updateReadingList sampleStore ("999")
        [(kUserId, JVal.str ("u1")), (kName, JVal.str ("B"))] ("t2") .fail
      = .error (readingListNotFoundMsg ("999")) := ⟨rfl, rfl⟩

/-- C4 (amended): a success response in the Lambda envelope shape returns
exactly the parsed inner payload for getBooks, and for createReadingList
the parsed payload or its list field when that is truthy; the one
exception is a payload of JSON null, on which the length read of the
getBooks success log and the list-field read of createReadingList throw a
TypeError, so getBooks falls back to the mock collection and
createReadingList to mock creation. -/
theorem envelope_passthrough :
    (∀ (store : Store) (st : Nat) (fields : List (String × JVal)) (v : JVal),
      statusOk st = true →
      olookup fields kBody = some (JVal.jsonStr v) →
      v ≠ JVal.null → v ≠ JVal.undefined →
      getBooks store (.response st (some (JVal.obj fields))) = v) ∧
    (∀ (input fields : List (String × JVal)) (now : Nat) (iso : String)
        (st : Nat) (v : JVal),
      statusOk st = true →
      olookup fields kBody = some (JVal.jsonStr v) →
      v ≠ JVal.null → v ≠ JVal.undefined →
      createReadingList input now iso (.response st (some (JVal.obj fields)))
        = (if truthy (jfieldD v kList) then jfieldD v kList else v)) ∧
    (∀ (input fields : List (String × JVal)) (now : Nat) (iso : String)
        (st : Nat),
      statusOk st = true →
      olookup fields kBody = some (JVal.jsonStr JVal.null) →
      createReadingList input now iso (.response st (some (JVal.obj fields)))
        = JVal.obj (mergeObj input [(kId, JVal.str (toString now)),
            (kCreatedAt, JVal.str iso), (kUpdatedAt, JVal.str iso)])) ∧
    (∀ (store : Store) (st : Nat) (fields : List (String × JVal)),
      statusOk st = true →
      olookup fields kBody = some (JVal.jsonStr JVal.null) →
      getBooks store (.response st (some (JVal.obj fields)))
        = JVal.arr (store.books.map JVal.obj)) := by
  refine ⟨?_, ?_, ?_, ?_⟩
  · intro store st fields v hok hb h1 h2
    have hb2 : jget (JVal.obj fields) kBody = .ok (JVal.jsonStr v) := by
      simp [jget_obj, objField, hb]
    have hv := jget_eq_jfieldD v kLength h1 h2
    simp [getBooks, getBooksTry, hok, hb2, truthy_jsonStr,
      isStringVal_jsonStr, jparse_jsonStr, hv]
  · intro input fields now iso st v hok hb h1 h2
    have hb2 : jget (JVal.obj fields) kBody = .ok (JVal.jsonStr v) := by
      simp [jget_obj, objField, hb]
    have hv := jget_eq_jfieldD v kList h1 h2
    cases ht : truthy (jfieldD v kList) with
    | true =>
      simp [createReadingList, createReadingListTry, hok, hb2,
        truthy_jsonStr, isStringVal_jsonStr, jparse_jsonStr, hv, ht]
    | false =>
      simp [createReadingList, createReadingListTry, hok, hb2,
        truthy_jsonStr, isStringVal_jsonStr, jparse_jsonStr, hv, ht]
  · intro input fields now iso st hok hb
    simp [createReadingList, createReadingListTry, hok, jget, objField,
      hb, truthy, isStringVal, jparse]
  · intro store st fields hok hb
    simp [getBooks, getBooksTry, hok, jget, objField, hb, truthy,
      isStringVal, jparse]

/-- Witness for the amended C4: an envelope around a book array for
getBooks, and an envelope whose payload carries a list field for
createReadingList. -/
theorem envelope_passthrough_witness :
    getBooks sampleStore (.response 200 (some (JVal.obj
        [(kStatusCode, JVal.num 200), (kHeaders, JVal.obj []),
         (kBody, JVal.jsonStr (JVal.arr [JVal.obj sampleBook1]))])))
      = JVal.arr [JVal.obj sampleBook1] ∧
    createReadingList [] 7 ("t") (.response 201 (some (JVal.obj
        [(kBody, JVal.jsonStr (JVal.obj [(kList, JVal.obj sampleList1)]))])))
      = JVal.obj sampleList1 := by
  constructor
  · exact envelope_passthrough.1 sampleStore 200
      [(kStatusCode, JVal.num 200), (kHeaders, JVal.obj []),
       (kBody, JVal.jsonStr (JVal.arr [JVal.obj sampleBook1]))]
      (JVal.arr [JVal.obj sampleBook1]) rfl rfl (by simp) (by simp)
  · have h := envelope_passthrough.2.1 []
      [(kBody, JVal.jsonStr (JVal.obj [(kList, JVal.obj sampleList1)]))]
      7 ("t") 201 (JVal.obj [(kList, JVal.obj sampleList1)]) rfl rfl
      (by simp) (by simp)
    exact h

/-- C4 as stated is false: a wrapped envelope whose inner body parses to
JSON null makes createReadingList return a mock-created record, not the
parsed payload. -/
theorem envelope_null_payload_counterexample :
    createReadingList [(kName, JVal.str ("x"))] 7 ("t")
        (.response 200 (some (JVal.obj [(kStatusCode, JVal.num 200),
          (kHeaders, JVal.obj []), (kBody, JVal.jsonStr JVal.null)])))
      = JVal.obj [(kName, JVal.str ("x")), (kId, JVal.str ("7")),
          (kCreatedAt, JVal.str ("t")), (kUpdatedAt, JVal.str ("t"))] ∧
    JVal.obj [(kName, JVal.str ("x")), (kId, JVal.str ("7")),
        (kCreatedAt, JVal.str ("t")), (kUpdatedAt, JVal.str ("t"))]
      ≠ JVal.null := ⟨rfl, by simp⟩

/-- C6 (amended): on the mock-fallback path both update operations return a
record whose id equals the requested id, the id field being written after
the spreads; on the network-success path the layer returns the server
record unmodified, so the returned id is whatever the server sent. -/
theorem update_id_stability :
    (∀ (store : Store) (id : String) (input b : List (String × JVal)),
      store.books.find? (fun x => idIs x id) = some b →
      ∃ kvs, updateBook store id input .fail = .ok (JVal.obj kvs) ∧
        olookup kvs kId = some (JVal.str id)) ∧
    (∀ (store : Store) (id : String) (input l : List (String × JVal))
        (iso : String),
      truthy (objField input kUserId) = true →
      store.lists.find? (fun x => idIs x id) = some l →
      ∃ kvs, updateReadingList store id input iso .fail
          = .ok (JVal.obj kvs) ∧
        olookup kvs kId = some (JVal.str id)) ∧
    (∀ (store : Store) (id : String) (input fields : List (String × JVal))
        (st : Nat),
      statusOk st = true → olookup fields kBody = none →
      updateBook store id input (.response st (some (JVal.obj fields)))
        = .ok (JVal.obj fields)) := by
  refine ⟨?_, ?_, ?_⟩
  · intro store id input b hf
    refine ⟨mergeObj (mergeObj b input) [(kId, JVal.str id)], ?_, ?_⟩
    · simp [updateBook, updateBookTry, hf]
    · rw [olookup_mergeObj]; simp [olookup]
  · intro store id input l iso hu hf
    refine ⟨mergeObj (mergeObj l input)
      [(kId, JVal.str id), (kUpdatedAt, JVal.str iso)], ?_, ?_⟩
    · simp [updateReadingList, hu, updateReadingListTry, hf]
    · rw [olookup_mergeObj]; simp [olookup]
  · intro store id input fields st hok hb
    simp [updateBook, updateBookTry, hok, jget, objField, hb, truthy,
      isStringVal]

/-- Witness for the amended C6: fallback update of stored book 1 keeps id
1, and a 2xx server record is passed through unmodified. -/
theorem update_id_stability_witness :
    (∃ kvs, updateBook sampleStore ("1") [("title", JVal.str ("New"))] .fail
        = .ok (JVal.obj kvs) ∧ olookup kvs kId = some (JVal.str ("1"))) ∧
    updateBook sampleStore ("1") []
        (.response 200 (some (JVal.obj [(kId, JVal.str ("zzz"))])))
      = .ok (JVal.obj [(kId, JVal.str ("zzz"))]) := by
  constructor
  · exact update_id_stability.1 sampleStore ("1") [("title", JVal.str ("New"))]
      sampleBook1 rfl
  · exact update_id_stability.2.2 sampleStore ("1") [] _ 200 rfl rfl

/-- C6 as stated is false on the network path: a 2xx response carrying a
record with a different id is returned as is, so the returned id field is
zzz rather than the requested 1. -/
theorem update_id_passthrough_counterexample :
    updateBook sampleStore ("1") []
        (.response 200 (some (JVal.obj [(kId, JVal.str ("zzz"))])))
      = .ok (JVal.obj [(kId, JVal.str ("zzz"))]) ∧
    olookup [(kId, JVal.str ("zzz"))] kId = some (JVal.str ("zzz")) ∧
    JVal.str ("zzz") ≠ JVal.str ("1") := ⟨rfl, rfl, by simp⟩

/-- C7: a list name that is empty after trimming is rejected before any
network call: createReadingList is not invoked (the Bool component is
false) and the page state is returned unchanged. -/
theorem blank_name_rejected (store : Store) (st : PageState) (now : Nat)
    (iso : String) (oCreate oReload : FetchOutcome)
    (h : jsTrim st.newListName = "") :
    handleCreateList store st now iso oCreate oReload = (false, st) := by
  simp [handleCreateList, h]

/-- Witness for C7 at a whitespace-only name. -/
theorem blank_name_rejected_witness :
    handleCreateList sampleStore blankNameState 1 ("t") .fail .fail
      = (false, blankNameState) :=
  blank_name_rejected sampleStore blankNameState 1 ("t") .fail .fail rfl

/-- C8: a 404 response makes getBook return null at once, before the mock
fallback is consulted, whatever the mock store holds for that id. -/
theorem getBook_404_null (store : Store) (id : String) (mres : Option JVal) :
    getBook store id (.response 404 mres) = JVal.null := rfl

/-- C9: updateReadingList rejects a partial without a truthy userId before
any request and before any fallback, independently of the fetch outcome;
updateBook performs no such check and only ever signals not-found. -/
theorem userId_precondition :
    (∀ (store : Store) (id : String) (input : List (String × JVal))
        (iso : String) (o : FetchOutcome),
      truthy (objField input kUserId) = false →
      updateReadingList store id input iso o = .error userIdRequiredMsg) ∧
    (∀ store id input o e,
      updateBook store id input o = .error e → e = bookNotFoundMsg id) := by
  constructor
  · intro store id input iso o hu
    simp [updateReadingList, hu]
  · exact fun store id input o e h => updateBook_errors store id input o e h

/-- Witness for C9: an empty partial lacks userId, so the update is
rejected even though the fetch outcome is a success response. -/
theorem userId_precondition_witness :
    updateReadingList sampleStore ("1") [] ("t")
        (.response 200 (some (JVal.arr []))) = .error userIdRequiredMsg :=
  userId_precondition.1 sampleStore ("1") [] ("t")
    (.response 200 (some (JVal.arr []))) rfl

/-- C10: no access-layer operation mutates the mock data store: threading
the store through any sequence of calls returns it unchanged, since no
branch of the source assigns to mockBooks or mockReadingLists. -/
theorem mock_store_unchanged (ops : List Op) (s : Store) :
    runSeq ops s = s := by
  induction ops generalizing s with
  | nil => rfl
  | cons op rest ih =>
    have h2 : (runOp op s).2 = s := by cases op <;> rfl
    calc runSeq (op :: rest) s = runSeq rest (runOp op s).2 := rfl
      _ = runSeq rest s := by rw [h2]
      _ = s := ih s

end LibraryApi
